import Mathlib

/-!
Verification of the voicevox web engine core, embedded shallowly from the
TypeScript sources: the InferenceWorker model-session cache, the
Engine/MainThreadEngine initialization state machine, the WAV container
byte formatting of synthesize, and the correlated cross-context messaging
between the ServiceWorker (sw.ts) and the main thread (sw-proxy.ts).
The execution model is the JavaScript event loop: every async function is
a sequence of synchronous segments separated by awaits, and each segment
runs atomically; the definitions below embed those segments directly.
-/

/-! ## Model types and paths (InferenceWorker.ts / Engine.ts) -/

/-- The four model kinds of the session cache (type ModelType in the
source: yukarinS, yukarinSa, spectrogram, vocoder). -/
inductive ModelType
  | yukarinS
  | yukarinSa
  | spectrogram
  | vocoder
deriving DecidableEq

/-- The constant list modelTypes the source iterates over. -/
def modelTypes : List ModelType :=
  [.yukarinS, .yukarinSa, .spectrogram, .vocoder]

/-- Embeds InferenceWorker.modelPaths and Engine.modelPaths (identical
bodies): the speaker id parameter is ignored and every speaker maps to
the same four model locations. -/
def modelPaths (_speakerId : Int) : ModelType → String
  | .yukarinS => "./models/duration.onnx"
  | .yukarinSa => "./models/intonation.onnx"
  | .spectrogram => "./models/spectrogram.onnx"
  | .vocoder => "./models/vocoder.onnx"

/-- The sessions field of InferenceWorker: for each model type, which
model paths currently hold a loaded session (the keys of the
per-model-type Map, abstracting the session values away). -/
structure WorkerSessions where
  has : ModelType → String → Bool

/-- Embeds InferenceWorker.sessionInitialized: true iff every model
type's session map holds an entry at that speaker's model path. -/
def sessionInitialized (w : WorkerSessions) (speakerId : Int) : Bool :=
  modelTypes.all fun mt => w.has mt (modelPaths speakerId mt)

/-- The sessions state after InferenceWorker.initializeSession speakerId
resolves successfully: each of the four session maps has gained an entry
at that speaker's model path. -/
def afterInitializeSession (w : WorkerSessions) (speakerId : Int) : WorkerSessions :=
  ⟨fun mt p => w.has mt p || p == modelPaths speakerId mt⟩

/-! ## Per-fingerprint load deduplication (InferenceWorker.ts)

One fingerprint is one (modelType, modelPath) pair; distinct fingerprints
use distinct map entries and are independent, so the cache is modelled
per fingerprint. Requests against a fingerprint come from the per-model
task of initializeSession or from getSession; each runs its first
synchronous segment atomically and then suspends at its first await. -/

/-- A request against one fingerprint: the per-model task of
InferenceWorker.initializeSession, or an InferenceWorker.getSession call. -/
inductive ReqKind
  | initializeReq
  | getReq
deriving DecidableEq

/-- Cache state for one fingerprint: stored is the sessions-map entry at
its model path (session instances are numbered by creation order),
registered is the initializingModels entry at its init key (the load it
resolves to), created counts invocations of InferenceSession.create for
this fingerprint (the k-th invocation produces session instance k). -/
structure FingerprintState where
  stored : Option Nat
  registered : Option Nat
  created : Nat
deriving DecidableEq

/-- The empty cache: no stored session, no registered load, no
InferenceSession.create calls yet. -/
def initialFingerprintState : FingerprintState := ⟨none, none, 0⟩

/-- Where a request stands after its first synchronous segment. -/
inductive TaskPhase
  | doneInit
  | doneGet (session : Nat)
  | awaitInit (loadId : Nat)
  | awaitGet (loadId : Nat)
  | creatorRegistered (loadId : Nat)
  | creatorUnregistered (loadId : Nat)
deriving DecidableEq

/-- First synchronous segment of a request, exactly as the source runs it
before its first await.
For initializeReq (the per-model task of initializeSession): if the
session map already has the path, return; else if initializingModels has
the init key, await that load; else start the init IIFE, whose
synchronous prefix invokes InferenceSession.create, and register the
promise in initializingModels before awaiting it.
For getReq (getSession): if the session map has the path, return that
session; else if initializingModels has the init key, await that load;
else invoke InferenceSession.create WITHOUT registering anything in
initializingModels, and await it. -/
def startRequest (s : FingerprintState) : ReqKind → FingerprintState × TaskPhase
  | .initializeReq =>
    if s.stored.isSome then (s, .doneInit)
    else
      match s.registered with
      | some l => (s, .awaitInit l)
      | none =>
        (⟨s.stored, some (s.created + 1), s.created + 1⟩, .creatorRegistered (s.created + 1))
  | .getReq =>
    match s.stored with
    | some v => (s, .doneGet v)
    | none =>
      match s.registered with
      | some l => (s, .awaitGet l)
      | none => (⟨s.stored, s.registered, s.created + 1⟩, .creatorUnregistered (s.created + 1))

/-- Run the first synchronous segments of a sequence of requests, in
order, all before any load resolves (requests issued before the first
load resolves). -/
def startRequests (s : FingerprintState) : List ReqKind → FingerprintState × List TaskPhase
  | [] => (s, [])
  | r :: rs =>
    let p := startRequest s r
    let q := startRequests p.1 rs
    (q.1, p.2 :: q.2)

/-- Resolution of load l: the creating segment's continuation stores the
created session in the sessions map, and the registered
initializingModels entry for l (if it is this load) is removed by the
creator's finally block. -/
def finishLoad (s : FingerprintState) (l : Nat) : FingerprintState :=
  ⟨some l, if s.registered = some l then none else s.registered, s.created⟩

/-- The session instance a getSession caller receives, given the cache
state when the load it awaits has resolved: joiners re-read the sessions
map, the unregistered creator returns the session it created itself;
initializeSession tasks return no session. -/
def getResult (s : FingerprintState) : TaskPhase → Option Nat
  | .doneGet v => some v
  | .awaitGet _ => s.stored
  | .creatorUnregistered l => some l
  | _ => none

/-- A request that joins the registered load 1 ends awaiting it, via the
branch of its own kind. -/
def joinPhase : ReqKind → TaskPhase
  | .initializeReq => .awaitInit 1
  | .getReq => .awaitGet 1

/-! ## Engine / MainThreadEngine initialization (Engine.ts,
MainThreadEngine.ts; the two initializeCore bodies are identical in the
state they touch) -/

/-- The initialization flags of an Engine or MainThreadEngine instance. -/
structure EngineInitState where
  isInitialized : Bool
  initializeInProgress : Bool
deriving DecidableEq

/-- How the synchronous prefix of initializeCore settles. -/
inductive InitStartResult
  | rejected (msg : String)
  | resolvedImmediately
  | started
deriving DecidableEq

/-- Synchronous prefix of initializeCore: the in-progress guard rejects,
the already-initialized fast path resolves, otherwise the in-progress
flag is set and the bootstrap proceeds. -/
def initializeCoreStart (s : EngineInitState) : EngineInitState × InitStartResult :=
  if s.initializeInProgress then (s, .rejected ("Initialization already in progress"))
  else if s.isInitialized then (s, .resolvedImmediately)
  else ({ s with initializeInProgress := true }, .started)

/-- State after the bootstrap (initialize, MountDictionaryAsync,
SynthesisExports.Initialize) settles: on success the final then-handler
sets isInitialized and clears initializeInProgress; on failure no
handler runs — initializeCore has no catch or finally — so the state is
left untouched and initializeInProgress remains set. -/
def initializeCoreFinish (s : EngineInitState) (bootstrapOk : Bool) : EngineInitState :=
  if bootstrapOk then ⟨true, false⟩ else s

/-! ## WAV container formatting (Engine.synthesize /
MainThreadEngine.synthesize; identical bodies)

The raw audio samples returned by SynthesisWave are 32-bit IEEE-754
floats; they are modelled by their binary32 bit patterns, the 32-bit
words that DataView.setFloat32 with littleEndian true writes to the
buffer. Bytes are Nat values below 256. -/

/-- Little-endian byte serialization of a 16-bit field, as written by
DataView.setUint16 with littleEndian true. -/
def le16 (v : Nat) : List Nat := [v % 256, v / 256 % 256]

/-- Little-endian byte serialization of a 32-bit field, as written by
DataView.setUint32 with littleEndian true (only the low 32 bits of v are
kept, matching the JS coercion). -/
def le32 (v : Nat) : List Nat :=
  [v % 256, v / 256 % 256, v / 65536 % 256, v / 16777216 % 256]

/-- Big-endian byte serialization of a 32-bit field, as written by
DataView.setUint32 with littleEndian false (used for the four-character
chunk magics). -/
def be32 (v : Nat) : List Nat :=
  [v / 16777216 % 256, v / 65536 % 256, v / 256 % 256, v % 256]

/-- The sample-writing loop of synthesize: for each i, the 4 bytes at
offset 44 + 4 * i are the little-endian serialization of sample i. -/
def writeSamples : List Nat → List Nat
  | [] => []
  | s :: rest => le32 s ++ writeSamples rest

/-- The 44 header bytes synthesize writes at offsets 0 through 43:
RIFF magic, riff-chunk size 36 + byteLength, WAVE magic, fmt magic,
fmt-chunk size 16, audio format 3 (IEEE float), 1 channel, sample rate
24000, byte rate 24000 * 4, block size 4, bit depth 32, data magic, and
data size byteLength, where byteLength is sampleCount * 4. -/
def wavHeader (sampleCount : Nat) : List Nat :=
  be32 0x52494646 ++ le32 (36 + sampleCount * 4) ++ be32 0x57415645 ++
  be32 0x666d7420 ++ le32 16 ++ le16 3 ++ le16 1 ++
  le32 24000 ++ le32 (24000 * 4) ++ le16 4 ++ le16 32 ++
  be32 0x64617461 ++ le32 (sampleCount * 4)

/-- Embeds Engine.synthesize / MainThreadEngine.synthesize after the raw
samples are obtained from the synthesis runtime: a 44-byte header
followed by the samples serialized in order as little-endian 4-byte
words. -/
def synthesize (rawAudio : List Nat) : List Nat :=
  wavHeader rawAudio.length ++ writeSamples rawAudio

/-! ## Cross-context calls and the pending-request tables
(sw-proxy.ts main thread side, sw.ts ServiceWorker side)

Each side keeps a Map from correlation id to resolve/reject callbacks
(pendingInferenceRequests in sw-proxy.ts, pendingRequests in sw.ts).
The tables are modelled as association lists from id to an abstract
continuation token; a single outstanding call is also modelled on its
own as a (membership, promise-settlement) pair. -/

/-- JS disjunction e or d on an optional string operand: undefined and
the empty string are falsy and fall through to the default. -/
def jsOr (e : Option String) (d : String) : String :=
  match e with
  | none => d
  | some s => if s = "" then d else s

/-- Settlement state of the promise returned by a cross-context call. -/
inductive CallOutcome
  | pending
  | resolved
  | rejected (msg : String)
deriving DecidableEq

/-- One outstanding cross-context call: whether its correlation id is
still in the issuing side's pending table, and how its promise has
settled. -/
structure CallSt where
  inTable : Bool
  outcome : CallOutcome
deriving DecidableEq

/-- A JS promise settles at most once; settling an already-settled
promise is a no-op. -/
def settle (o r : CallOutcome) : CallOutcome :=
  match o with
  | .pending => r
  | _ => o

/-- Events that can reach one outstanding call: its 60-second timer
firing, or a reply envelope with its id arriving. -/
inductive CallEvent
  | timerFire
  | reply (success : Bool) (error : Option String)

/-- Main-thread side (sw-proxy.ts), for one call issued by
sendInferenceToServiceWorker: the setTimeout callback deletes the entry
and rejects with the timeout error only if the id is still present; the
per-id part of handleInferenceResponse settles the promise only if the
id is still present, deleting it first; otherwise both are no-ops. -/
def inferenceCallStep (s : CallSt) : CallEvent → CallSt
  | .timerFire =>
    if s.inTable then ⟨false, settle s.outcome (.rejected ("Inference request timeout"))⟩
    else s
  | .reply success error =>
    if s.inTable then
      ⟨false, settle s.outcome
        (if success then .resolved else .rejected (jsOr error ("Inference failed")))⟩
    else s

/-- ServiceWorker side (sw.ts), for one call issued by sendToMainThread:
same shape, with its own timeout and default error messages, the timer
in sendToMainThread and the per-id part of handleMainThreadResponse. -/
def mainThreadCallStep (s : CallSt) : CallEvent → CallSt
  | .timerFire =>
    if s.inTable then ⟨false, settle s.outcome (.rejected ("Request timeout"))⟩
    else s
  | .reply success error =>
    if s.inTable then
      ⟨false, settle s.outcome
        (if success then .resolved else .rejected (jsOr error ("Unknown error")))⟩
    else s

/-- The timeout passed to setTimeout in sendInferenceToServiceWorker. -/
def inferenceRequestTimeoutMs : Nat := 60000

/-- The timeout passed to setTimeout in sendToMainThread. -/
def mainThreadRequestTimeoutMs : Nat := 60000

/-- A pending-request table: correlation id to continuation token. -/
abbrev PendingTable := List (String × Nat)

/-- Result of running handleInferenceResponse (sw-proxy.ts): the table
afterwards, which continuation settled with which outcome (if any), and
the boolean the function returns to its caller. -/
structure InferenceResponseResult where
  table : PendingTable
  settled : Option (Nat × CallOutcome)
  handled : Bool
deriving DecidableEq

/-- Embeds handleInferenceResponse (main thread): envelopes whose type is
not inferenceResponse are not handled; otherwise the id is looked up in
pendingInferenceRequests, an absent id is a no-op, and a present id is
deleted and its promise settled per the success flag. -/
def handleInferenceResponse (tbl : PendingTable) (msgType id : String)
    (success : Bool) (error : Option String) : InferenceResponseResult :=
  if msgType ≠ "inferenceResponse" then ⟨tbl, none, false⟩
  else
    match tbl.lookup id with
    | none => ⟨tbl, none, true⟩
    | some k =>
      ⟨tbl.filter (fun p => p.1 != id),
        some (k, if success then .resolved else .rejected (jsOr error ("Inference failed"))),
        true⟩

/-- Result of running handleMainThreadResponse (sw.ts): the table
afterwards and which continuation settled with which outcome (if any). -/
structure MainThreadResponseResult where
  table : PendingTable
  settled : Option (Nat × CallOutcome)
deriving DecidableEq

/-- Embeds handleMainThreadResponse (ServiceWorker): the id is looked up
in pendingRequests, an absent id is a no-op, and a present id is deleted
and its promise settled per the success flag. -/
def handleMainThreadResponse (tbl : PendingTable) (id : String)
    (success : Bool) (error : Option String) : MainThreadResponseResult :=
  match tbl.lookup id with
  | none => ⟨tbl, none⟩
  | some k =>
    ⟨tbl.filter (fun p => p.1 != id),
      some (k, if success then .resolved else .rejected (jsOr error ("Unknown error")))⟩

/-! ## Delegated-call dispatch (sw.ts sendToMainThread and
handleInferenceRequest; sw-proxy.ts handleMessage and its message
listener) -/

/-- Synchronous outcome of sendToMainThread once the window-client list
is known. -/
inductive SendOutcome
  | thrown (msg : String)
  | posted (table : PendingTable) (envelopeId envelopeType : String)
deriving DecidableEq

/-- Embeds sendToMainThread (sw.ts): with no window client it throws;
otherwise it stores the fresh correlation id in pendingRequests and
posts the call envelope to the client — unconditionally, with no check
of the main thread's readiness. -/
def sendToMainThread (clientCount : Nat) (tbl : PendingTable)
    (freshId : String) (cont : Nat) (msgType : String) : SendOutcome :=
  if clientCount = 0 then .thrown ("No client available to handle request")
  else .posted ((freshId, cont) :: tbl) freshId msgType

/-- Result of the main-thread dispatcher handleMessage: a returned
payload (none models the JS null it returns for unknown types) or a
thrown error. -/
inductive DispatchResult
  | ok (payload : Option String)
  | threw (msg : String)
deriving DecidableEq

/-- Embeds handleMessage (sw-proxy.ts). engineExists is whether the
module-level engine is non-null, coreReady whether the engine's dotnet
exports are mounted; runOp abstracts the engine call performed for the
four delegated operations once the core is ready (each engine method
first throws when the core is not initialized). Any other type falls to
the default case, which only logs a warning and returns null. -/
def handleMessage (engineExists coreReady : Bool) (runOp : String → String)
    (msgType : String) : DispatchResult :=
  if engineExists = false ∧ msgType ≠ "initialize" then .threw ("Engine not initialized")
  else if msgType = "initialize" then .ok (some "initialized")
  else if msgType = "audioQuery" ∨ msgType = "accentPhrases" ∨
      msgType = "moraData" ∨ msgType = "synthesis" then
    if coreReady then .ok (some (runOp msgType)) else .threw ("Core not initialized")
  else .ok none

/-- The message listener installed by setupServiceWorkerProxy wraps the
dispatcher result in the response envelope posted back to the
ServiceWorker: (success, data, error). -/
def proxyListenerReply (r : DispatchResult) : Bool × Option String × Option String :=
  match r with
  | .ok payload => (true, payload, none)
  | .threw msg => (false, none, some msg)

/-- Reply behaviour of the ServiceWorker's inference dispatcher. -/
inductive SwReplyAction
  | noReply
  | post (success : Bool) (data : Option (List Int)) (error : Option String)
deriving DecidableEq

/-- Embeds handleInferenceRequest (sw.ts) for call envelopes: response
envelopes are routed to handleMainThreadResponse (modelled separately);
envelopes whose type is not inference, whose inferenceType is missing or
empty, or which carry no data are dropped without a reply, as is the
case of no window client; the three known inference types run the
InferenceWorker forward call (abstracted by runInference) and post its
result or error; any other inference type throws inside the try block,
so a failure reply with the unknown-inference-type error is posted. -/
def handleInferenceRequest (msgType : String) (inferenceType : Option String)
    (hasData : Bool) (clientCount : Nat)
    (runInference : String → Except String (List Int)) : SwReplyAction :=
  if msgType = "response" then .noReply
  else if msgType ≠ "inference" ∨ inferenceType.getD "" = "" ∨ hasData = false then .noReply
  else if clientCount = 0 then .noReply
  else
    let it := inferenceType.getD ""
    if it = "yukarinS" ∨ it = "yukarinSa" ∨ it = "decode" then
      match runInference it with
      | .ok result => .post true (some result) none
      | .error e => .post false none (some e)
    else .post false none (some ("Unknown inference type: " ++ it))

/-! ## Theorems -/

/-- Once a registered load is in flight (stored empty, registered load 1,
one creation so far), every further request leaves the state unchanged
and joins load 1. -/
theorem startRequests_all_join (rs : List ReqKind) :
    startRequests ⟨none, some 1, 1⟩ rs = (⟨none, some 1, 1⟩, rs.map joinPhase) := by
  induction rs with
  | nil => rfl
  | cons r rest ih =>
    cases r <;> simp [startRequests, startRequest, joinPhase, ih]

/-- C1 (amended): when the request that finds the fingerprint unloaded is
the per-model task of initializeSession, it invokes
InferenceSession.create exactly once and registers the load, every one
of the other concurrent requests joins that load, and once the load
resolves every getSession joiner receives session instance 1 — the one
session the single create produced. -/
theorem c1_initialize_first_creates_once (rs : List ReqKind) :
    (startRequests initialFingerprintState (.initializeReq :: rs)).1 = ⟨none, some 1, 1⟩ ∧
    (startRequests initialFingerprintState (.initializeReq :: rs)).2 =
      .creatorRegistered 1 :: rs.map joinPhase ∧
    (∀ t ∈ (startRequests initialFingerprintState (.initializeReq :: rs)).2, ∀ v,
      getResult (finishLoad (startRequests initialFingerprintState (.initializeReq :: rs)).1 1) t
        = some v → v = 1) := by
  have hstart : startRequests initialFingerprintState (.initializeReq :: rs) =
      ((startRequests ⟨none, some 1, 1⟩ rs).1,
        .creatorRegistered 1 :: (startRequests ⟨none, some 1, 1⟩ rs).2) := rfl
  rw [hstart, startRequests_all_join]
  refine ⟨rfl, rfl, ?_⟩
  intro t ht v hv
  rcases List.mem_cons.mp ht with h | h
  · subst h
    simp [getResult] at hv
  · rcases List.mem_map.mp h with ⟨r, _, hr⟩
    subst hr
    cases r <;> simp [joinPhase, getResult, finishLoad] at hv
    omega

theorem c1_initialize_first_creates_once_witness :
    (startRequests initialFingerprintState [.initializeReq, .getReq]).1 = ⟨none, some 1, 1⟩ ∧
    (1 : Nat) = 1 := by
  have h := c1_initialize_first_creates_once [.getReq]
  exact ⟨h.1, h.2.2 (.awaitGet 1) (by decide) 1 (by decide)⟩

/-- C1 (counterexample): two getSession requests for the same fingerprint
issued before the first load resolves each invoke
InferenceSession.create — the factory runs twice, not once, because
getSession never registers its load in initializingModels — and the two
callers receive distinct session instances 1 and 2. -/
theorem c1_two_concurrent_gets_create_twice :
    (startRequests initialFingerprintState [.getReq, .getReq]).1.created = 2 ∧
    (startRequests initialFingerprintState [.getReq, .getReq]).2 =
      [.creatorUnregistered 1, .creatorUnregistered 2] ∧
    getResult (startRequests initialFingerprintState [.getReq, .getReq]).1
        (.creatorUnregistered 1) = some 1 ∧
    getResult (startRequests initialFingerprintState [.getReq, .getReq]).1
        (.creatorUnregistered 2) = some 2 := by
  refine ⟨rfl, rfl, rfl, rfl⟩

theorem writeSamples_length (l : List Nat) : (writeSamples l).length = 4 * l.length := by
  induction l with
  | nil => rfl
  | cons s rest ih =>
    simp [writeSamples, le32, ih]
    ring

theorem wavHeader_length (n : Nat) : (wavHeader n).length = 44 := by
  simp [wavHeader, be32, le32, le16]

theorem writeSamples_index (l : List Nat) (i : Nat) (h : i < l.length) :
    ((writeSamples l).drop (4 * i)).take 4 = le32 (l.getD i 0) := by
  induction l generalizing i with
  | nil => simp at h
  | cons s rest ih =>
    cases i with
    | zero =>
      show ((le32 s ++ writeSamples rest).drop 0).take 4 = le32 s
      rw [List.drop_zero]
      exact List.take_left' rfl
    | succ j =>
      have hj : j < rest.length := by simpa using h
      have h4 : 4 * (j + 1) = (le32 s).length + 4 * j := by
        simp [le32]
        ring
      show ((le32 s ++ writeSamples rest).drop (4 * (j + 1))).take 4 = le32 ((s :: rest).getD (j + 1) 0)
      rw [h4, List.drop_append]
      simpa using ih j hj

/-- C8: for raw samples of length n, synthesize returns 44 + 4 * n bytes;
the first 44 bytes are the fixed WAV header — RIFF magic, riff size
36 + 4 * n (little-endian), WAVE magic, fmt magic, fmt-chunk size 16,
format code 3 (IEEE float), 1 channel, sample rate 24000, byte rate
96000, block size 4, bit depth 32, data magic, data size 4 * n — and for
every sample index i the 4 bytes at offset 44 + 4 * i are sample i
serialized as a little-endian 4-byte word. The output is a pure function
of the sample sequence. -/
theorem c8_wav_layout (rawAudio : List Nat) :
    (synthesize rawAudio).length = 44 + 4 * rawAudio.length ∧
    (synthesize rawAudio).take 44 =
      [0x52, 0x49, 0x46, 0x46] ++ le32 (36 + rawAudio.length * 4) ++
      [0x57, 0x41, 0x56, 0x45] ++ [0x66, 0x6d, 0x74, 0x20] ++
      [16, 0, 0, 0] ++ [3, 0] ++ [1, 0] ++
      [0xc0, 0x5d, 0, 0] ++ [0, 0x77, 1, 0] ++ [4, 0] ++ [32, 0] ++
      [0x64, 0x61, 0x74, 0x61] ++ le32 (rawAudio.length * 4) ∧
    (∀ i, i < rawAudio.length →
      ((synthesize rawAudio).drop (44 + 4 * i)).take 4 = le32 (rawAudio.getD i 0)) := by
  refine ⟨?_, ?_, ?_⟩
  · simp [synthesize, wavHeader_length, writeSamples_length]
  · rw [synthesize, List.take_left' (wavHeader_length rawAudio.length)]
    simp [wavHeader, be32, le32, le16]
  · intro i hi
    have hdrop : (synthesize rawAudio).drop (44 + 4 * i) = (writeSamples rawAudio).drop (4 * i) := by
      rw [synthesize]
      have : 44 + 4 * i = (wavHeader rawAudio.length).length + 4 * i := by
        rw [wavHeader_length]
      rw [this, List.drop_append]
    rw [hdrop]
    exact writeSamples_index rawAudio i hi

theorem c8_wav_layout_witness :
    ((synthesize [5]).drop (44 + 4 * 0)).take 4 = le32 5 := by
  have h := (c8_wav_layout [5]).2.2 0 (by decide)
  simpa using h

theorem inferenceCallStep_absent (o : CallOutcome) (e : CallEvent) :
    inferenceCallStep ⟨false, o⟩ e = ⟨false, o⟩ := by
  cases e <;> simp [inferenceCallStep]

theorem mainThreadCallStep_absent (o : CallOutcome) (e : CallEvent) :
    mainThreadCallStep ⟨false, o⟩ e = ⟨false, o⟩ := by
  cases e <;> simp [mainThreadCallStep]

theorem foldl_inferenceCallStep_absent (o : CallOutcome) (evs : List CallEvent) :
    List.foldl inferenceCallStep ⟨false, o⟩ evs = ⟨false, o⟩ := by
  induction evs with
  | nil => rfl
  | cons e rest ih => rw [List.foldl_cons, inferenceCallStep_absent]; exact ih

theorem foldl_mainThreadCallStep_absent (o : CallOutcome) (evs : List CallEvent) :
    List.foldl mainThreadCallStep ⟨false, o⟩ evs = ⟨false, o⟩ := by
  induction evs with
  | nil => rfl
  | cons e rest ih => rw [List.foldl_cons, mainThreadCallStep_absent]; exact ih

/-- C2: both deadlines are the fixed 60000 ms, and in both directions a
call whose timer fires before any matching reply ends with its pending
entry removed and its promise rejected with the timeout error, and every
matching reply delivered afterwards — however many, whatever their
success flags and error strings — leaves that final state untouched. -/
theorem c2_timeout_rejects_and_removes (replies : List (Bool × Option String)) :
    inferenceRequestTimeoutMs = 60000 ∧
    mainThreadRequestTimeoutMs = 60000 ∧
    List.foldl inferenceCallStep (inferenceCallStep ⟨true, .pending⟩ .timerFire)
        (replies.map fun r => .reply r.1 r.2) =
      ⟨false, .rejected ("Inference request timeout")⟩ ∧
    List.foldl mainThreadCallStep (mainThreadCallStep ⟨true, .pending⟩ .timerFire)
        (replies.map fun r => .reply r.1 r.2) =
      ⟨false, .rejected ("Request timeout")⟩ := by
  refine ⟨rfl, rfl, ?_, ?_⟩
  · have h1 : inferenceCallStep ⟨true, .pending⟩ .timerFire =
        ⟨false, .rejected ("Inference request timeout")⟩ := rfl
    rw [h1, foldl_inferenceCallStep_absent]
  · have h1 : mainThreadCallStep ⟨true, .pending⟩ .timerFire =
        ⟨false, .rejected ("Request timeout")⟩ := rfl
    rw [h1, foldl_mainThreadCallStep_absent]

/-- C3: delivering a reply envelope whose correlation id is absent from
the receiving side's pending table is a no-op in both directions: the
table is unchanged, no continuation settles, and no error is raised
(handleInferenceResponse still reports the envelope as handled). -/
theorem c3_unknown_id_reply_noop (tbl : PendingTable) (id : String)
    (success : Bool) (error : Option String) (h : tbl.lookup id = none) :
    handleInferenceResponse tbl ("inferenceResponse") id success error = ⟨tbl, none, true⟩ ∧
    handleMainThreadResponse tbl id success error = ⟨tbl, none⟩ := by
  constructor
  · simp [handleInferenceResponse, h]
  · simp [handleMainThreadResponse, h]

theorem c3_unknown_id_reply_noop_witness :
    handleInferenceResponse [(("a" : String), 7)] ("inferenceResponse") ("b") true none =
      ⟨[(("a" : String), 7)], none, true⟩ ∧
    handleMainThreadResponse [(("a" : String), 7)] ("b") true none =
      ⟨[(("a" : String), 7)], none⟩ :=
  c3_unknown_id_reply_noop [(("a" : String), 7)] ("b") true none (by decide)

theorem filter_keeps_of_lookup_none (tbl : PendingTable) (id : String)
    (h : tbl.lookup id = none) : tbl.filter (fun p => p.1 != id) = tbl := by
  induction tbl with
  | nil => rfl
  | cons p rest ih =>
    obtain ⟨k, v⟩ := p
    by_cases hk : id = k
    · subst hk
      simp [List.lookup] at h
    · have hk2 : (id == k) = false := beq_false_of_ne hk
      have hk3 : (k == id) = false := beq_false_of_ne (fun hkk => hk hkk.symm)
      have h2 : rest.lookup id = none := by
        simpa [List.lookup, hk2] using h
      have ih2 := ih h2
      simp only [bne] at ih2
      simp only [List.filter_cons, bne, hk3, Bool.not_false, if_true, ih2]

/-- C4 (counterexample): a delegated audioQuery call issued while the
main-thread engine does not exist still posts its call envelope —
sendToMainThread registers the id and posts unconditionally whenever a
window client exists, with no readiness check — and the not-initialized
error arises only on the main thread, whose dispatcher throws it. -/
theorem c4_envelope_sent_before_ready :
    sendToMainThread 1 [] ("req-0") 0 ("audioQuery") =
      .posted [(("req-0" : String), 0)] ("req-0") ("audioQuery") ∧
    handleMessage false false (fun _ => "") ("audioQuery") =
      .threw ("Engine not initialized") := by
  refine ⟨rfl, rfl⟩

/-- C4 (amended): a delegated call (audioQuery, accentPhrases, moraData
or synthesis) issued before the main-thread engine exists is rejected
with the engine-not-initialized error, but only after a full round trip:
the ServiceWorker posts the call envelope and registers the pending id,
the main-thread dispatcher throws, the listener posts back a failure
reply carrying that message, and handleMainThreadResponse removes the
pending entry and rejects the caller's promise with it. -/
theorem c4_uninitialized_delegation_roundtrip (clientCount : Nat) (tbl : PendingTable)
    (freshId : String) (cont : Nat) (msgType : String) (runOp : String → String)
    (hc : clientCount ≠ 0)
    (hm : msgType = "audioQuery" ∨ msgType = "accentPhrases" ∨
      msgType = "moraData" ∨ msgType = "synthesis")
    (hid : tbl.lookup freshId = none) :
    sendToMainThread clientCount tbl freshId cont msgType =
      .posted ((freshId, cont) :: tbl) freshId msgType ∧
    proxyListenerReply (handleMessage false false runOp msgType) =
      (false, none, some ("Engine not initialized")) ∧
    handleMainThreadResponse ((freshId, cont) :: tbl) freshId false
        (some ("Engine not initialized")) =
      ⟨tbl, some (cont, .rejected ("Engine not initialized"))⟩ := by
  refine ⟨?_, ?_, ?_⟩
  · simp [sendToMainThread, hc]
  · rcases hm with rfl | rfl | rfl | rfl <;> rfl
  · simp [handleMainThreadResponse, List.lookup, jsOr,
      filter_keeps_of_lookup_none tbl freshId hid]

theorem c4_uninitialized_delegation_roundtrip_witness :
    sendToMainThread 1 [] ("r0") 0 ("synthesis") =
      .posted [(("r0" : String), 0)] ("r0") ("synthesis") ∧
    proxyListenerReply (handleMessage false false (fun _ => "") ("synthesis")) =
      (false, none, some ("Engine not initialized")) ∧
    handleMainThreadResponse [(("r0" : String), 0)] ("r0") false
        (some ("Engine not initialized")) =
      ⟨[], some (0, .rejected ("Engine not initialized"))⟩ :=
  c4_uninitialized_delegation_roundtrip 1 [] ("r0") 0 ("synthesis") (fun _ => "")
    (by decide) (Or.inr (Or.inr (Or.inr rfl))) (by decide)

/-- C5 (counterexample): the main-thread dispatcher handleMessage, given
an unknown message type on a fully initialized engine, does not produce
a failure reply: it returns null, so the listener posts a reply with
success true, no data and no error. -/
theorem c5_unknown_type_gets_success_reply :
    handleMessage true true (fun _ => "") ("bogusOperation") = .ok none ∧
    proxyListenerReply (handleMessage true true (fun _ => "") ("bogusOperation")) =
      (true, none, none) := by
  refine ⟨rfl, rfl⟩

/-- C5 (amended): only the ServiceWorker direction replies with a failure
for an unknown operation — handleInferenceRequest posts success false
with the unknown-inference-type error for any unrecognized non-empty
inferenceType — while the main-thread dispatcher handleMessage answers
an unknown message type with a success reply whose data is null. -/
theorem c5_unknown_operation_replies (it msgType : String)
    (runInference : String → Except String (List Int)) (runOp : String → String)
    (h1 : it ≠ "" ∧ it ≠ "yukarinS" ∧ it ≠ "yukarinSa" ∧ it ≠ "decode")
    (h2 : msgType ≠ "initialize" ∧ msgType ≠ "audioQuery" ∧ msgType ≠ "accentPhrases" ∧
      msgType ≠ "moraData" ∧ msgType ≠ "synthesis") :
    handleInferenceRequest ("inference") (some it) true 1 runInference =
      .post false none (some ("Unknown inference type: " ++ it)) ∧
    handleMessage true true runOp msgType = .ok none := by
  obtain ⟨h1e, h1a, h1b, h1c⟩ := h1
  obtain ⟨h2a, h2b, h2c, h2d, h2e⟩ := h2
  constructor
  · simp [handleInferenceRequest, h1e, h1a, h1b, h1c]
  · simp [handleMessage, h2a, h2b, h2c, h2d, h2e]

theorem c5_unknown_operation_replies_witness :
    handleInferenceRequest ("inference") (some "bogus") true 1 (fun _ => .ok []) =
      .post false none (some ("Unknown inference type: " ++ "bogus")) ∧
    handleMessage true true (fun _ => "") ("anUnknownType") = .ok none :=
  c5_unknown_operation_replies ("bogus") ("anUnknownType") (fun _ => .ok []) (fun _ => "")
    (by refine ⟨?_, ?_, ?_, ?_⟩ <;> decide)
    (by refine ⟨?_, ?_, ?_, ?_, ?_⟩ <;> decide)

/-- C9: modelPaths ignores the speaker id, so the four model locations
are constant across speakers, and after initializeSession s1 resolves,
sessionInitialized s2 is true for every speaker id s2. -/
theorem c9_speaker_independent_fingerprints (s1 s2 : Int) (w : WorkerSessions) :
    modelPaths s1 = modelPaths s2 ∧
    sessionInitialized (afterInitializeSession w s1) s2 = true := by
  constructor
  · funext mt
    cases mt <;> rfl
  · simp [sessionInitialized, afterInitializeSession, modelTypes, modelPaths]

/-- C6: a second initializeCore call issued while a first one is still in
progress rejects immediately with the already-in-progress error, leaving
the state unchanged (no joining, no queuing). -/
theorem c6_concurrent_initialize_rejects (s : EngineInitState)
    (h : s.initializeInProgress = true) :
    initializeCoreStart s = (s, .rejected ("Initialization already in progress")) := by
  simp [initializeCoreStart, h]

theorem c6_concurrent_initialize_rejects_witness :
    initializeCoreStart ⟨false, true⟩ =
      (⟨false, true⟩, .rejected ("Initialization already in progress")) :=
  c6_concurrent_initialize_rejects ⟨false, true⟩ rfl

/-- C7: evaluation at the failing input. A fresh engine starts its first
initializeCore (setting the in-progress flag); the bootstrap fails; the
flag is NOT cleared — the source has no catch or finally — so a
subsequent initializeCore call rejects with the already-in-progress
error instead of starting a fresh attempt, contradicting the claim that
the flag is cleared before the rejection is surfaced. -/
theorem c7_failed_bootstrap_leaves_flag_set :
    initializeCoreStart ⟨false, false⟩ = (⟨false, true⟩, .started) ∧
    (initializeCoreFinish ⟨false, true⟩ false).initializeInProgress = true ∧
    initializeCoreStart (initializeCoreFinish ⟨false, true⟩ false) =
      (⟨false, true⟩, .rejected ("Initialization already in progress")) := by
  refine ⟨rfl, rfl, rfl⟩

/-- C10: once initialization has completed successfully
(isInitialized true, initializeInProgress false), every later
initializeCore call resolves immediately, without starting the bootstrap
and without mutating any state. -/
theorem c10_initialize_idempotent_after_success (s : EngineInitState)
    (h1 : s.isInitialized = true) (h2 : s.initializeInProgress = false) :
    initializeCoreStart s = (s, .resolvedImmediately) := by
  simp [initializeCoreStart, h1, h2]

theorem c10_initialize_idempotent_after_success_witness :
    initializeCoreStart ⟨true, false⟩ = (⟨true, false⟩, .resolvedImmediately) :=
  c10_initialize_idempotent_after_success ⟨true, false⟩ rfl rfl
